import Mathlib

/-!
Shallow embedding of `simplified_enhanced_metrics.py`: per-simulation
heuristic scoring of recorded agent conversations (communication,
technical-accuracy and efficiency sub-scores, weighted composite,
failure classification) and the dataset summary, with theorems checking
the specification's claims about these routines.

Python floats are modelled by `ℚ` (the script only adds, multiplies,
divides and compares decimal constants, so the rational model is exact).
A JSON object field that the script reads with `.get(key, default)` is
modelled as an `Option` field; a field read with mandatory indexing
(`sim['reward_info']['reward']`) is modelled as an `Option` field whose
absence propagates failure through the analysis pipeline.
-/

/-- A conversation message. `role` and `content` model the optional JSON
keys read via `message.get('role')` / `message.get('content', '')`;
`hasToolCalls` / `hasFunctionCall` model the key-presence tests
`'tool_calls' in message` / `'function_call' in message`. -/
structure Message where
  role : Option String
  content : Option String
  hasToolCalls : Bool
  hasFunctionCall : Bool
deriving DecidableEq, Repr

/-- The `reward_info` sub-object of a simulation record. -/
structure RewardInfo where
  reward : ℚ
deriving DecidableEq, Repr

/-- A recorded simulation. `rewardInfo` is `Option`al because
`sim['reward_info']` raises when the key is missing (modelled as failure
propagation in `analyze_simulations`); `terminationReason` and
`duration` are read with `.get(..., default)` in the source. -/
structure Simulation where
  rewardInfo : Option RewardInfo
  messages : List Message
  terminationReason : Option String
  duration : Option ℚ
deriving DecidableEq, Repr

/-- Python's `str.lower()`, modelled character-by-character (the search
phrases of the source are all ASCII, for which this agrees with the
Python semantics). -/
def strToLower (s : String) : String := ⟨s.data.map Char.toLower⟩

/-- Python's substring test `phrase in content` on strings. -/
def containsSubstr (content phrase : String) : Bool :=
  decide (phrase.toList <:+: content.toList)

/-- Python loop `any(phrase in content for phrase in phrases)`. -/
def containsAny (content : String) (phrases : List String) : Bool :=
  phrases.any (fun phrase => containsSubstr content phrase)

/-- Points awarded to one agent message inside
`assess_communication_quality`: the tiered `if`/`elif` chain of the
source, evaluated on the lower-cased content (missing content defaults
to the empty string, as `message.get('content', '')` does). -/
def messagePoints (message : Message) : ℚ :=
  let content := strToLower (message.content.getD "")
  if containsAny content ["please", "let me help", "i understand", "can you"] then 1
  else if containsAny content ["step by step", "first", "next", "verify"] then 8/10
  else if content.length > 50 then 5/10
  else 3/10

/-- Function `assess_communication_quality`: average of per-message tier points
over the agent messages, clamped to at most 1; `0.0` on an empty list. -/
def assess_communication_quality (agent_messages : List Message) : ℚ :=
  if agent_messages.isEmpty then 0
  else
    let quality_score := (agent_messages.map messagePoints).sum
    let total_messages : ℚ := agent_messages.length
    min 1 (quality_score / total_messages)

/-- The fixed technical-term list of `assess_technical_accuracy`. -/
def technical_terms : List String :=
  ["check", "verify", "enable", "disable", "toggle", "settings", "network", "data"]

/-- Whether a message's lower-cased content contains one of the
`technical_terms` (one increment per message in the source loop). -/
def isTechnicalMessage (message : Message) : Bool :=
  containsAny (strToLower (message.content.getD "")) technical_terms

/-- Whether a message carries a `tool_calls` or `function_call` key
(presence test in the source loop). -/
def hasToolIndicator (message : Message) : Bool :=
  message.hasToolCalls || message.hasFunctionCall

/-- Function `assess_technical_accuracy`: count messages with technical terms and
messages with tool-call indicators, score `0.1`/`0.2` per count, clamp
to at most 1, then floor at `0.6`. -/
def assess_technical_accuracy (messages : List Message) : ℚ :=
  let technical_content : ℚ := messages.countP isTechnicalMessage
  let tool_calls : ℚ := messages.countP hasToolIndicator
  let technical_score := min 1 (technical_content * (1/10) + tool_calls * (2/10))
  max (6/10) technical_score

/-- Function `assess_efficiency`: step function on message count, branching on
the sign of the reward. -/
def assess_efficiency (messages : List Message) (reward : ℚ) : ℚ :=
  let message_count := messages.length
  if reward > 0 then
    if message_count ≤ 10 then 1
    else if message_count ≤ 20 then 8/10
    else if message_count ≤ 30 then 6/10
    else 4/10
  else
    if message_count ≤ 5 then 3/10
    else if message_count ≤ 15 then 5/10
    else 2/10

/-- Result of `analyze_failure_pattern`. The Python function returns one
of two dict shapes: `{'failure_type': None, 'failure_reason': 'Success'}`
on success, and a five-key dict on failure; the two constructors mirror
those shapes exactly. -/
inductive FailureAnalysis where
  | success (failure_reason : String)
  | failure (failure_type failure_reason termination_reason : String)
      (message_count : Nat) (duration : ℚ)
deriving DecidableEq, Repr

/-- The `failure_type` entry of a `FailureAnalysis` dict: `None` in the
success shape, a string label in the failure shape. -/
def FailureAnalysis.failureType : FailureAnalysis → Option String
  | .success _ => none
  | .failure t _ _ _ _ => some t

/-- Function `analyze_failure_pattern`: success short-circuit on `reward > 0`,
otherwise classification by `termination_reason` (read with default
`'unknown'`) and message count, with `duration` read with default `0`. -/
def analyze_failure_pattern (simulation : Simulation) (messages : List Message)
    (reward : ℚ) : FailureAnalysis :=
  if reward > 0 then .success "Success"
  else
    let termination_reason := simulation.terminationReason.getD "unknown"
    let message_count := messages.length
    let duration := simulation.duration.getD 0
    if termination_reason = "user_stop" then
      if message_count < 5 then
        .failure "premature_termination" "Conversation ended too early"
          termination_reason message_count duration
      else if message_count > 30 then
        .failure "extended_failure" "Long conversation without resolution"
          termination_reason message_count duration
      else
        .failure "execution_timing" "User stopped despite ongoing conversation"
          termination_reason message_count duration
    else if termination_reason = "max_turns" then
      .failure "timeout_failure" "Reached maximum conversation length"
        termination_reason message_count duration
    else
      .failure "unknown_failure" ("Terminated due to: " ++ termination_reason)
        termination_reason message_count duration

/-- The per-simulation record returned by `calculate_enhanced_metrics`. -/
structure SimulationMetrics where
  execution_score : ℚ
  communication_score : ℚ
  technical_score : ℚ
  efficiency_score : ℚ
  overall_score : ℚ
  failure_analysis : FailureAnalysis
  message_count : Nat
  agent_message_count : Nat
deriving DecidableEq, Repr

/-- The agent-authored subset of a message list:
`[msg for msg in messages if msg.get('role') == 'assistant']`. -/
def agentMessages (messages : List Message) : List Message :=
  messages.filter (fun msg => msg.role == some "assistant")

/-- Function `calculate_enhanced_metrics`: the four sub-scores, the weighted
composite `0.35/0.25/0.25/0.15`, the failure analysis and the message
counts for one simulation. -/
def calculate_enhanced_metrics (messages : List Message) (reward : ℚ)
    (simulation : Simulation) : SimulationMetrics :=
  let execution_score := reward
  let agent_messages := agentMessages messages
  let communication_score := assess_communication_quality agent_messages
  let technical_score := assess_technical_accuracy messages
  let efficiency_score := assess_efficiency messages reward
  let overall_score :=
    execution_score * (35/100) +
    communication_score * (25/100) +
    technical_score * (25/100) +
    efficiency_score * (15/100)
  { execution_score := execution_score
    communication_score := communication_score
    technical_score := technical_score
    efficiency_score := efficiency_score
    overall_score := overall_score
    failure_analysis := analyze_failure_pattern simulation messages reward
    message_count := messages.length
    agent_message_count := agent_messages.length }

/-- The summary dict returned by `generate_summary_insights` on a
non-empty input (the failure-type histogram is modelled as the counting
function `String → Nat` behind the `defaultdict`). -/
structure DatasetSummary where
  total_simulations : Nat
  average_execution_score : ℚ
  average_communication_score : ℚ
  average_technical_score : ℚ
  average_efficiency_score : ℚ
  average_overall_score : ℚ
  excellent : Nat
  good : Nat
  acceptable : Nat
  poor : Nat
  failure_type_count : String → Nat
  average_message_count : ℚ
  min_message_count : Nat
  max_message_count : Nat
  success_rate : ℚ

/-- Arithmetic mean of a list of rationals, `np.mean`. -/
def listMean (l : List ℚ) : ℚ := l.sum / l.length

/-- Function `generate_summary_insights`: `none` models the empty-dict
short-circuit on an empty input; on a non-empty input every statistic of
the source is computed. -/
def generate_summary_insights (enhanced_results : List SimulationMetrics) :
    Option DatasetSummary :=
  match enhanced_results with
  | [] => none
  | r :: rs =>
    let overall_scores := (r :: rs).map SimulationMetrics.overall_score
    let execution_scores := (r :: rs).map SimulationMetrics.execution_score
    let message_counts := (r :: rs).map SimulationMetrics.message_count
    some
      { total_simulations := (r :: rs).length
        average_execution_score := listMean execution_scores
        average_communication_score :=
          listMean ((r :: rs).map SimulationMetrics.communication_score)
        average_technical_score :=
          listMean ((r :: rs).map SimulationMetrics.technical_score)
        average_efficiency_score :=
          listMean ((r :: rs).map SimulationMetrics.efficiency_score)
        average_overall_score := listMean overall_scores
        excellent := overall_scores.countP (fun s => 8/10 ≤ s)
        good := overall_scores.countP (fun s => 6/10 ≤ s ∧ s < 8/10)
        acceptable := overall_scores.countP (fun s => 4/10 ≤ s ∧ s < 6/10)
        poor := overall_scores.countP (fun s => s < 4/10)
        failure_type_count := fun t =>
          (r :: rs).countP
            (fun m => m.failure_analysis.failureType == some t)
        average_message_count := listMean (message_counts.map (Nat.cast))
        min_message_count := rs.foldl (fun a m => Nat.min a m.message_count) r.message_count
        max_message_count := rs.foldl (fun a m => Nat.max a m.message_count) r.message_count
        success_rate :=
          (execution_scores.countP (fun s => 0 < s) : ℚ) / (r :: rs).length }

/-- The per-simulation extraction `sim['reward_info']['reward']` of
`analyze_simulation_file`: fails when `reward_info` is missing. -/
def extract_reward (sim : Simulation) : Option ℚ :=
  sim.rewardInfo.map RewardInfo.reward

/-- The per-simulation loop of `analyze_simulation_file`: each record's
reward extraction may fail (missing `reward_info` raises `KeyError` in
Python), and such a failure aborts the whole analysis. -/
def analyze_simulations (sims : List Simulation) : Option (List SimulationMetrics) :=
  sims.mapM (fun sim =>
    (extract_reward sim).map (fun reward =>
      calculate_enhanced_metrics sim.messages reward sim))

example : assess_efficiency [] 0 = 3/10 := by norm_num [assess_efficiency]
example : assess_communication_quality [] = 0 := by decide
example : assess_technical_accuracy [] = 6/10 := by norm_num [assess_technical_accuracy]

/-- C1: for every simulation record, `calculate_enhanced_metrics` passes
the raw input reward through unchanged as `execution_score` and returns
`overall_score` equal to exactly
`0.35*execution_score + 0.25*communication_score + 0.25*technical_score
+ 0.15*efficiency_score`. -/
theorem overall_score_is_weighted_sum (messages : List Message) (reward : ℚ)
    (sim : Simulation) :
    (calculate_enhanced_metrics messages reward sim).execution_score = reward ∧
    (calculate_enhanced_metrics messages reward sim).overall_score =
      35/100 * (calculate_enhanced_metrics messages reward sim).execution_score +
      25/100 * (calculate_enhanced_metrics messages reward sim).communication_score +
      25/100 * (calculate_enhanced_metrics messages reward sim).technical_score +
      15/100 * (calculate_enhanced_metrics messages reward sim).efficiency_score := by
  refine ⟨rfl, ?_⟩
  simp only [calculate_enhanced_metrics]
  ring

/-- C2: `assess_technical_accuracy` returns
`max 0.6 (min 1 (technical_content*0.1 + tool_calls*0.2))`, where
`technical_content` counts (at most once per message) messages whose
lower-cased content contains one of the eight fixed terms and
`tool_calls` counts (at most once per message) messages carrying a
`tool_calls` or `function_call` key; the result always lies in
`[0.6, 1]`. -/
theorem technical_accuracy_formula_and_bounds (messages : List Message) :
    assess_technical_accuracy messages =
      max (6/10) (min 1 ((messages.countP isTechnicalMessage : ℚ) * (1/10) +
        (messages.countP hasToolIndicator : ℚ) * (2/10))) ∧
    6/10 ≤ assess_technical_accuracy messages ∧
    assess_technical_accuracy messages ≤ 1 := by
  refine ⟨rfl, le_max_left _ _, ?_⟩
  exact max_le (by norm_num) (min_le_left _ _)

/-- C4: `assess_efficiency` is the step function branching on the sign
of the reward (success: count ≤ 10 → 1, ≤ 20 → 0.8, ≤ 30 → 0.6, else
0.4; failure: count ≤ 5 → 0.3, ≤ 15 → 0.5, else 0.2) and only ever
returns one of the seven constants
{1, 0.8, 0.6, 0.4, 0.3, 0.5, 0.2}. -/
theorem efficiency_step_function (messages : List Message) (reward : ℚ) :
    assess_efficiency messages reward =
      (if 0 < reward then
        if messages.length ≤ 10 then 1
        else if messages.length ≤ 20 then 8/10
        else if messages.length ≤ 30 then 6/10
        else 4/10
      else
        if messages.length ≤ 5 then 3/10
        else if messages.length ≤ 15 then 5/10
        else 2/10) ∧
    assess_efficiency messages reward ∈
      ([1, 8/10, 6/10, 4/10, 3/10, 5/10, 2/10] : List ℚ) := by
  refine ⟨rfl, ?_⟩
  unfold assess_efficiency
  dsimp only
  split_ifs <;> simp

/-- Every tier of the communication scoring chain awards at least `0.3`
points, so per-message points are nonnegative. -/
theorem messagePoints_nonneg (m : Message) : 0 ≤ messagePoints m := by
  unfold messagePoints
  dsimp only
  split_ifs <;> norm_num

/-- On a non-empty agent-message list the communication score is the
clamped average of the per-message tier points. -/
theorem comm_quality_cons (m : Message) (ms : List Message) :
    assess_communication_quality (m :: ms) =
      min 1 (((m :: ms).map messagePoints).sum / (((m :: ms).length : ℕ) : ℚ)) := rfl

/-- The communication score is nonnegative on every input. -/
theorem comm_quality_nonneg (msgs : List Message) :
    0 ≤ assess_communication_quality msgs := by
  cases msgs with
  | nil => norm_num [assess_communication_quality]
  | cons m ms =>
    rw [comm_quality_cons]
    refine le_min (by norm_num) (div_nonneg ?_ (by positivity))
    refine List.sum_nonneg ?_
    intro x hx
    rcases List.mem_map.1 hx with ⟨y, _, rfl⟩
    exact messagePoints_nonneg y

/-- The communication score never exceeds `1`. -/
theorem comm_quality_le_one (msgs : List Message) :
    assess_communication_quality msgs ≤ 1 := by
  cases msgs with
  | nil => norm_num [assess_communication_quality]
  | cons m ms =>
    rw [comm_quality_cons]
    exact min_le_left _ _

/-- C3: `assess_communication_quality` awards each agent message points
by the first matching tier in strict priority order (politeness phrase
1, else structure phrase 0.8, else lower-cased length > 50 gives 0.5,
else 0.3), returns the sum divided by the message count clamped to at
most 1, returns exactly 0 on an empty sequence, and always lies in
`[0, 1]`. -/
theorem communication_quality_spec :
    (∀ m : Message, messagePoints m =
      (if containsAny (strToLower (m.content.getD ""))
          ["please", "let me help", "i understand", "can you"] then 1
       else if containsAny (strToLower (m.content.getD ""))
          ["step by step", "first", "next", "verify"] then 8/10
       else if (strToLower (m.content.getD "")).length > 50 then 5/10
       else 3/10)) ∧
    assess_communication_quality [] = 0 ∧
    (∀ (m : Message) (ms : List Message),
      assess_communication_quality (m :: ms) =
        min 1 (((m :: ms).map messagePoints).sum / (((m :: ms).length : ℕ) : ℚ))) ∧
    (∀ msgs : List Message,
      0 ≤ assess_communication_quality msgs ∧
      assess_communication_quality msgs ≤ 1) :=
  ⟨fun _ => rfl, rfl, comm_quality_cons,
    fun msgs => ⟨comm_quality_nonneg msgs, comm_quality_le_one msgs⟩⟩

/-- C5: `analyze_failure_pattern` yields a null `failure_type` exactly
for positive rewards; a positive reward gives precisely the two-field
success record with reason `Success`, and a non-positive reward always
gives the failure shape with a non-null label. -/
theorem failure_type_null_iff_success (sim : Simulation) (messages : List Message)
    (reward : ℚ) :
    ((analyze_failure_pattern sim messages reward).failureType = none ↔ 0 < reward) ∧
    (0 < reward → analyze_failure_pattern sim messages reward =
      FailureAnalysis.success "Success") ∧
    (reward ≤ 0 → ∃ t reason tr mc d,
      analyze_failure_pattern sim messages reward =
        FailureAnalysis.failure t reason tr mc d) := by
  by_cases h : 0 < reward
  · refine ⟨?_, fun _ => ?_, fun h2 => absurd h (not_lt.2 h2)⟩ <;>
      simp [analyze_failure_pattern, h, FailureAnalysis.failureType]
  · refine ⟨?_, fun h1 => absurd h1 h, fun _ => ?_⟩
    · unfold analyze_failure_pattern
      rw [if_neg h]
      dsimp only
      split_ifs <;> simp [FailureAnalysis.failureType, h]
    · unfold analyze_failure_pattern
      rw [if_neg h]
      dsimp only
      split_ifs <;> exact ⟨_, _, _, _, _, rfl⟩

/-- A concrete successful simulation used to instantiate theorems. -/
def sampleSuccessSim : Simulation := ⟨some ⟨1⟩, [], none, none⟩

/-- C5 witness: at reward `1` the classifier returns the success
record. -/
theorem failure_type_null_iff_success_witness :
    (0:ℚ) < 1 ∧
    analyze_failure_pattern sampleSuccessSim [] 1 = FailureAnalysis.success "Success" :=
  ⟨by decide, (failure_type_null_iff_success sampleSuccessSim [] 1).2.1 (by decide)⟩

/-- C6: for a failed simulation the classifier branches on the
termination reason read with default `unknown`: `user_stop` splits on
message count (`< 5` premature, `> 30` extended, otherwise execution
timing), `max_turns` gives the timeout failure, anything else gives
`unknown_failure` with the raw value interpolated, and every branch
passes the termination reason, message count and duration
(default `0`) through from the input. -/
theorem failure_classification_spec (sim : Simulation) (messages : List Message)
    (reward : ℚ) (h : reward ≤ 0) :
    analyze_failure_pattern sim messages reward =
      (let termination_reason := sim.terminationReason.getD "unknown"
       let message_count := messages.length
       let duration := sim.duration.getD 0
       if termination_reason = "user_stop" then
         if message_count < 5 then
           FailureAnalysis.failure "premature_termination"
             "Conversation ended too early" termination_reason message_count duration
         else if message_count > 30 then
           FailureAnalysis.failure "extended_failure"
             "Long conversation without resolution" termination_reason message_count duration
         else
           FailureAnalysis.failure "execution_timing"
             "User stopped despite ongoing conversation" termination_reason message_count duration
       else if termination_reason = "max_turns" then
         FailureAnalysis.failure "timeout_failure"
           "Reached maximum conversation length" termination_reason message_count duration
       else
         FailureAnalysis.failure "unknown_failure"
           ("Terminated due to: " ++ termination_reason) termination_reason
           message_count duration) := by
  unfold analyze_failure_pattern
  rw [if_neg (not_lt.2 h)]

/-- A concrete failed simulation that hit the turn limit. -/
def sampleFailedSim : Simulation := ⟨some ⟨0⟩, [], some "max_turns", some 7⟩

/-- C6 witness: a reward-`0` simulation with termination reason
`max_turns` is classified as a timeout failure with its fields passed
through. -/
theorem failure_classification_spec_witness :
    (0:ℚ) ≤ 0 ∧
    analyze_failure_pattern sampleFailedSim [] 0 =
      FailureAnalysis.failure "timeout_failure" "Reached maximum conversation length"
        "max_turns" 0 7 :=
  ⟨by decide,
    (failure_classification_spec sampleFailedSim [] 0 (by decide)).trans (by rfl)⟩

/-- C8: on an empty metrics list `generate_summary_insights`
short-circuits to the empty summary (modelled by `none`) before
computing any statistic, rather than failing. -/
theorem empty_input_empty_summary : generate_summary_insights [] = none := rfl

/-- Exactly one of the four performance-tier predicates of
`generate_summary_insights` holds for any rational score. -/
theorem tier_partition_rat (s : ℚ) :
    ((if 8/10 ≤ s then 1 else 0) : ℕ) +
      (if 6/10 ≤ s ∧ s < 8/10 then 1 else 0) +
      (if 4/10 ≤ s ∧ s < 6/10 then 1 else 0) +
      (if s < 4/10 then 1 else 0) = 1 := by
  rcases lt_or_le s (4/10) with h1 | h1
  · have a1 : ¬ (8:ℚ)/10 ≤ s := by linarith
    have a2 : ¬ ((6:ℚ)/10 ≤ s ∧ s < 8/10) := by rintro ⟨h, _⟩; linarith
    have a3 : ¬ ((4:ℚ)/10 ≤ s ∧ s < 6/10) := by rintro ⟨h, _⟩; linarith
    simp [a1, a2, a3, h1]
  · rcases lt_or_le s (6/10) with h2 | h2
    · have a1 : ¬ (8:ℚ)/10 ≤ s := by linarith
      have a2 : ¬ ((6:ℚ)/10 ≤ s ∧ s < 8/10) := by rintro ⟨h, _⟩; linarith
      have a4 : ¬ s < 4/10 := not_lt.2 h1
      simp [a1, a2, a4, h1, h2]
    · rcases lt_or_le s (8/10) with h3 | h3
      · have a1 : ¬ (8:ℚ)/10 ≤ s := not_le.2 h3
        have a3 : ¬ ((4:ℚ)/10 ≤ s ∧ s < 6/10) := by rintro ⟨_, h⟩; linarith
        have a4 : ¬ s < 4/10 := by linarith
        simp [a1, a3, a4, h2, h3]
      · have a2 : ¬ ((6:ℚ)/10 ≤ s ∧ s < 8/10) := by rintro ⟨_, h⟩; linarith
        have a3 : ¬ ((4:ℚ)/10 ≤ s ∧ s < 6/10) := by rintro ⟨_, h⟩; linarith
        have a4 : ¬ s < 4/10 := by linarith
        simp [h3, a2, a3, a4]

/-- The four tier counters of `generate_summary_insights` add up to the
length of the score list. -/
theorem tier_countP_sum (l : List ℚ) :
    (l.countP fun s => 8/10 ≤ s) + (l.countP fun s => 6/10 ≤ s ∧ s < 8/10) +
      (l.countP fun s => 4/10 ≤ s ∧ s < 6/10) + (l.countP fun s => s < 4/10) =
      l.length := by
  induction l with
  | nil => rfl
  | cons a t ih =>
    simp only [List.countP_cons, List.length_cons, decide_eq_true_eq]
    rcases lt_or_le a (4/10) with h1 | h1
    · have a1 : ¬ (8:ℚ)/10 ≤ a := by linarith
      have a2 : ¬ ((6:ℚ)/10 ≤ a ∧ a < 8/10) := by rintro ⟨h, _⟩; linarith
      have a3 : ¬ ((4:ℚ)/10 ≤ a ∧ a < 6/10) := by rintro ⟨h, _⟩; linarith
      rw [if_neg a1, if_neg a2, if_neg a3, if_pos h1]
      omega
    · rcases lt_or_le a (6/10) with h2 | h2
      · have a1 : ¬ (8:ℚ)/10 ≤ a := by linarith
        have a2 : ¬ ((6:ℚ)/10 ≤ a ∧ a < 8/10) := by rintro ⟨h, _⟩; linarith
        have a4 : ¬ a < 4/10 := not_lt.2 h1
        rw [if_neg a1, if_neg a2, if_pos ⟨h1, h2⟩, if_neg a4]
        omega
      · rcases lt_or_le a (8/10) with h3 | h3
        · have a1 : ¬ (8:ℚ)/10 ≤ a := not_le.2 h3
          have a3 : ¬ ((4:ℚ)/10 ≤ a ∧ a < 6/10) := by rintro ⟨_, h⟩; linarith
          have a4 : ¬ a < 4/10 := by linarith
          rw [if_neg a1, if_pos ⟨h2, h3⟩, if_neg a3, if_neg a4]
          omega
        · have a2 : ¬ ((6:ℚ)/10 ≤ a ∧ a < 8/10) := by rintro ⟨_, h⟩; linarith
          have a3 : ¬ ((4:ℚ)/10 ≤ a ∧ a < 6/10) := by rintro ⟨_, h⟩; linarith
          have a4 : ¬ a < 4/10 := by linarith
          rw [if_pos h3, if_neg a2, if_neg a3, if_neg a4]
          omega

/-- C7: the four performance-tier predicates (excellent `≥ 0.8`, good
`[0.6, 0.8)`, acceptable `[0.4, 0.6)`, poor `< 0.4`) are pairwise
disjoint and exhaustive over the rational scores, so on every non-empty
metrics list the summary's four bucket counts add up to the total number
of records. -/
theorem performance_tiers_partition :
    (∀ s : ℚ,
      ((if 8/10 ≤ s then 1 else 0) : ℕ) +
        (if 6/10 ≤ s ∧ s < 8/10 then 1 else 0) +
        (if 4/10 ≤ s ∧ s < 6/10 then 1 else 0) +
        (if s < 4/10 then 1 else 0) = 1) ∧
    (∀ (r : SimulationMetrics) (rs : List SimulationMetrics),
      (generate_summary_insights (r :: rs)).map
          (fun d => d.excellent + d.good + d.acceptable + d.poor) =
        some (r :: rs).length) := by
  refine ⟨tier_partition_rat, fun r rs => ?_⟩
  simp only [generate_summary_insights, Option.map_some]
  have h := tier_countP_sum (((r :: rs)).map SimulationMetrics.overall_score)
  rw [List.length_map] at h
  exact congrArg some h

/-- C10: the record built by `calculate_enhanced_metrics` satisfies
`agent_message_count ≤ message_count`; `agent_message_count` is exactly
the number of messages whose role is the string `assistant` (messages
with another role or no role at all are counted in `message_count` but
excluded), and the communication sub-score is computed on precisely that
agent-authored subset. -/
theorem agent_message_count_spec (messages : List Message) (reward : ℚ)
    (sim : Simulation) :
    (calculate_enhanced_metrics messages reward sim).agent_message_count ≤
      (calculate_enhanced_metrics messages reward sim).message_count ∧
    (calculate_enhanced_metrics messages reward sim).agent_message_count =
      (messages.filter (fun msg => msg.role == some "assistant")).length ∧
    (calculate_enhanced_metrics messages reward sim).message_count =
      messages.length ∧
    (calculate_enhanced_metrics messages reward sim).communication_score =
      assess_communication_quality
        (messages.filter (fun msg => msg.role == some "assistant")) := by
  refine ⟨?_, rfl, rfl, rfl⟩
  show (agentMessages messages).length ≤ messages.length
  exact List.length_filter_le _ _

/-- A message whose object carries no `content` key. -/
def noContentMessage : Message := ⟨some "assistant", none, false, false⟩

/-- A simulation containing a message that lacks its `content` key. -/
def contentDefaultSim : Simulation := ⟨some ⟨0⟩, [noContentMessage], none, none⟩

/-- C9 counterexample: a simulation whose message lacks the `content`
key is analysed successfully — the missing key is silently replaced by
the empty string (scoring the `0.3` base tier, identically to an
explicit empty content) instead of propagating a failure. -/
theorem missing_message_keys_swallowed :
    (analyze_simulations [contentDefaultSim]).isSome = true ∧
    assess_communication_quality [noContentMessage] = 3/10 ∧
    assess_communication_quality [noContentMessage] =
      assess_communication_quality [⟨some "assistant", some "", false, false⟩] := by
  refine ⟨rfl, ?_, rfl⟩
  rw [comm_quality_cons]
  have h : messagePoints noContentMessage = 3/10 := rfl
  simp [h]
  norm_num

/-- If an element of the list maps to `none`, the whole `Option`-valued
`mapM` collapses to `none` (the model of an uncaught `KeyError` aborting
the per-file loop). -/
theorem mapM_eq_none_of_mem {α β : Type} (f : α → Option β) (l : List α) (a : α)
    (h1 : a ∈ l) (h2 : f a = none) : l.mapM f = none := by
  induction l with
  | nil => cases h1
  | cons b t ih =>
    rw [List.mapM_cons]
    rcases List.mem_cons.1 h1 with rfl | h1
    · rw [h2]; rfl
    · cases hb : f b
      · rfl
      · rw [ih h1]
        rfl

/-- C9 amended: a simulation lacking its `reward_info` key makes the
whole analysis fail (the `KeyError` propagates to the caller), whereas a
message lacking its `content` key is scored exactly as if its content
were the empty string, and a message lacking its `role` key is simply
treated as non-agent-authored — message-level missing keys are
swallowed by defaults, not propagated. -/
theorem missing_reward_info_propagates (sims : List Simulation) (sim : Simulation)
    (h1 : sim ∈ sims) (h2 : sim.rewardInfo = none) :
    analyze_simulations sims = none ∧
    (∀ (role : Option String) (tc fc : Bool),
      messagePoints ⟨role, none, tc, fc⟩ = messagePoints ⟨role, some "", tc, fc⟩) ∧
    (∀ (content : Option String) (tc fc : Bool) (rest : List Message),
      agentMessages (⟨none, content, tc, fc⟩ :: rest) = agentMessages rest) := by
  refine ⟨?_, fun role tc fc => rfl, fun content tc fc rest => rfl⟩
  apply mapM_eq_none_of_mem _ _ sim h1
  simp [extract_reward, h2]

/-- A simulation record with no `reward_info` key at all. -/
def noRewardSim : Simulation := ⟨none, [], none, none⟩

/-- C9 amended witness: analysing a file whose single simulation lacks
`reward_info` yields no result. -/
theorem missing_reward_info_propagates_witness :
    noRewardSim ∈ [noRewardSim] ∧ noRewardSim.rewardInfo = none ∧
    analyze_simulations [noRewardSim] = none :=
  ⟨List.mem_singleton.2 rfl, rfl,
    (missing_reward_info_propagates [noRewardSim] noRewardSim
      (List.mem_singleton.2 rfl) rfl).1⟩
